import Mathlib

/-
Verification development for the `SearchBar` component
(src/src/app/components/SearchBar.tsx).

The component is embedded shallowly:

* JavaScript strings are Lean `String`s; where the source manipulates them
  (`split(" ")`, `slice(0, 2)`, `join(" ")`, `.length`, `trim()`,
  `startsWith`, `===`, `encodeURIComponent`, `Number(...)`/`isNaN`) the
  corresponding operation is modelled on the character list, with `.length`
  counted in UTF-16 code units and `Number` conversion following the
  ECMAScript string numeric grammar.
* The debounced fetch pipeline (`fetchSuggestions`, lodash `debounce` with a
  300 ms trailing window) is modelled twice: as a timed function from the
  list of input events to the list of fired debounced invocations, and as a
  small state machine over the component state (input text, suggestion
  list, loading flag, in-flight requests) whose events are input changes,
  debounce firings and fetch settlements.  The source applies every
  settlement unconditionally (it has no request token), and the model does
  the same.
* `handleSearch` is embedded as a pure function from the current suggestion
  list, the `course`/`professor`/`routeType` props and the selected text to
  its observable effects: whether `resetState` is invoked and which URL is
  pushed.
-/

/-! ## JavaScript character-level primitives -/

/-- The characters `String.prototype.trim` and `Number` conversion strip:
ECMAScript WhiteSpace and LineTerminator code points. -/
def isJsWhitespaceChar (c : Char) : Bool :=
  c.toNat = 32 || c.toNat = 9 || c.toNat = 10 || c.toNat = 13 || c.toNat = 11 ||
  c.toNat = 12 || c.toNat = 160 || c.toNat = 5760 ||
  (8192 ≤ c.toNat && c.toNat ≤ 8202) || c.toNat = 8232 || c.toNat = 8233 ||
  c.toNat = 8239 || c.toNat = 8287 || c.toNat = 12288 || c.toNat = 65279

/-- JS `s.trim()` on the character list: strip JS whitespace at both ends. -/
def jsTrimChars (l : List Char) : List Char :=
  ((l.dropWhile isJsWhitespaceChar).reverse.dropWhile isJsWhitespaceChar).reverse

/-- JS `s.length`: the number of UTF-16 code units (astral code points count
twice). -/
def utf16Len (l : List Char) : Nat :=
  l.foldl (fun n c => n + (if c.toNat < 65536 then 1 else 2)) 0

def isDecDigitChar (c : Char) : Bool := 48 ≤ c.toNat && c.toNat ≤ 57

def isHexDigitChar (c : Char) : Bool :=
  isDecDigitChar c || (65 ≤ c.toNat && c.toNat ≤ 70) || (97 ≤ c.toNat && c.toNat ≤ 102)

def isOctDigitChar (c : Char) : Bool := 48 ≤ c.toNat && c.toNat ≤ 55

def isBinDigitChar (c : Char) : Bool := c = '0' || c = '1'

/-- Exponent part of the ECMAScript StrDecimalLiteral grammar, or nothing. -/
def expTail : List Char → Bool
  | [] => true
  | c :: r =>
    (c = 'e' || c = 'E') &&
    (let r2 := match r with
      | s :: t => if s = '+' || s = '-' then t else s :: t
      | [] => []
     !r2.isEmpty && r2.all isDecDigitChar)

/-- StrUnsignedDecimalLiteral without the `Infinity` production:
`Digits [. Digits] [Exp]`, `. Digits [Exp]` or `Digits Exp`. -/
def decimalForm (l : List Char) : Bool :=
  let intPart := l.takeWhile isDecDigitChar
  let rest := l.dropWhile isDecDigitChar
  if intPart.isEmpty then
    match rest with
    | '.' :: r2 =>
      let fracPart := r2.takeWhile isDecDigitChar
      !fracPart.isEmpty && expTail (r2.dropWhile isDecDigitChar)
    | _ => false
  else
    match rest with
    | '.' :: r2 => expTail (r2.dropWhile isDecDigitChar)
    | r => expTail r

def unsignedDecForm (l : List Char) : Bool :=
  l == ['I', 'n', 'f', 'i', 'n', 'i', 't', 'y'] || decimalForm l

def signedDecForm (l : List Char) : Bool :=
  match l with
  | c :: rest => if c = '+' || c = '-' then unsignedDecForm rest else unsignedDecForm (c :: rest)
  | [] => false

/-- NonDecimalIntegerLiteral: `0x`/`0o`/`0b` (either case) with digits. -/
def radixIntForm (l : List Char) : Bool :=
  match l with
  | '0' :: c :: rest =>
    if c = 'x' || c = 'X' then !rest.isEmpty && rest.all isHexDigitChar
    else if c = 'o' || c = 'O' then !rest.isEmpty && rest.all isOctDigitChar
    else if c = 'b' || c = 'B' then !rest.isEmpty && rest.all isBinDigitChar
    else false
  | _ => false

/-- JS `!isNaN(Number(s))`: the trimmed string is empty (`Number("") = 0`) or
matches the string numeric literal grammar. -/
def jsNumberNotNaN (l : List Char) : Bool :=
  let t := jsTrimChars l
  t.isEmpty || radixIntForm t || signedDecForm t

/-- JS `s.split(" ")` accumulator: `acc` holds the current piece reversed. -/
def splitOnSpaceAux : List Char → List Char → List (List Char)
  | [], acc => [acc.reverse]
  | c :: cs, acc =>
    if c = ' ' then acc.reverse :: splitOnSpaceAux cs []
    else splitOnSpaceAux cs (c :: acc)

/-- JS `s.split(" ")`: split on the single space character, keeping empty
pieces, never returning an empty list. -/
def jsSplitSpace (s : List Char) : List (List Char) := splitOnSpaceAux s []

/-- JS `parts.join(" ")`. -/
def joinSpace : List (List Char) → List Char
  | [] => []
  | [a] => a
  | a :: b :: rest => a ++ ' ' :: joinSpace (b :: rest)

/-! ## encodeURIComponent -/

/-- The characters `encodeURIComponent` leaves unescaped. -/
def isUnreservedURIChar (c : Char) : Bool :=
  (65 ≤ c.toNat && c.toNat ≤ 90) || (97 ≤ c.toNat && c.toNat ≤ 122) ||
  (48 ≤ c.toNat && c.toNat ≤ 57) ||
  c = '-' || c = '_' || c = '.' || c = '!' || c = '~' || c = '*' ||
  c.toNat = 39 || c = '(' || c = ')'

def hexDigitChar (n : Nat) : Char :=
  if n < 10 then Char.ofNat (48 + n) else Char.ofNat (55 + n)

/-- The UTF-8 bytes of one code point. -/
def utf8Bytes (c : Char) : List Nat :=
  let n := c.toNat
  if n < 128 then [n]
  else if n < 2048 then [192 + n / 64, 128 + n % 64]
  else if n < 65536 then [224 + n / 4096, 128 + (n / 64) % 64, 128 + n % 64]
  else [240 + n / 262144, 128 + (n / 4096) % 64, 128 + (n / 64) % 64, 128 + n % 64]

def encodeChar (c : Char) : List Char :=
  if isUnreservedURIChar c then [c]
  else (utf8Bytes c).foldr
    (fun b acc => '%' :: hexDigitChar (b / 16) :: hexDigitChar (b % 16) :: acc) []

def encodeURIComponent (s : String) : String :=
  String.mk (s.data.foldr (fun c acc => encodeChar c ++ acc) [])

/-! ## Data model -/

/-- The suggestion shape of the API response (source lines 7-10). -/
structure Suggestion where
  suggestion : String
  type : String
deriving DecidableEq

/-- The `routeType` prop: `"course" | "professor" | null`. -/
inductive RouteType where
  | course : RouteType
  | professor : RouteType
deriving DecidableEq

def isCourseRoute : Option RouteType → Bool
  | some RouteType.course => true
  | _ => false

def isProfessorRoute : Option RouteType → Bool
  | some RouteType.professor => true
  | _ => false

/-- JS truthiness of an optional string prop: `undefined` and `""` are falsy. -/
def truthyStr : Option String → Bool
  | none => false
  | some s => !(s == "")

/-- JS `s.startsWith(c)`. -/
def jsStartsWith (s c : String) : Bool := List.isPrefixOf c.data s.data

/-! ## handleSearch (source lines 72-119) -/

/-- `course && suggestion.startsWith(course) && routeType === "course"`
(source line 89), as a boolean. -/
def isSameCourseB (suggestionText : String) (course : Option String)
    (rt : Option RouteType) : Bool :=
  match course with
  | none => false
  | some c => !(c == "") && jsStartsWith suggestionText c && isCourseRoute rt

/-- `professor && suggestion === professor && routeType === "professor"`
(source line 90), as a boolean. -/
def isSameProfessorB (suggestionText : String) (professor : Option String)
    (rt : Option RouteType) : Bool :=
  match professor with
  | none => false
  | some p => !(p == "") && (suggestionText == p) && isProfessorRoute rt

/-- Source lines 81 and 103-112: take the first two space-separated pieces of
the selected text, re-split the candidate, and if it has at least two pieces
whose second has UTF-16 length 4 and passes `!isNaN(Number(...))`, the
identifier becomes `piece0 ++ " " ++ piece1`; otherwise it stays the original
text. -/
def canonicalizeChars (s : List Char) : List Char :=
  match jsSplitSpace (joinSpace ((jsSplitSpace s).take 2)) with
  | p0 :: p1 :: _ =>
    if utf16Len p1 == 4 && jsNumberNotNaN p1 then p0 ++ ' ' :: p1 else s
  | _ => s

def canonicalizeSuggestion (s : String) : String := String.mk (canonicalizeChars s.data)

/-- The observable effects of one `handleSearch` call. -/
structure SearchEffects where
  resetCalled : Bool
  url : String
deriving DecidableEq

/-- `handleSearch` (source lines 72-119): decide `resetState` from the
sameness booleans (line 92), look the selected text up in the suggestion
list captured at render time (lines 98-100), canonicalize the identifier
(lines 103-112), and push the professor or course results URL (lines
114-118). -/
def handleSearch (sugs : List Suggestion) (course professor : Option String)
    (rt : Option RouteType) (hasResetState : Bool) (suggestionText : String) :
    SearchEffects :=
  { resetCalled :=
      !(isSameCourseB suggestionText course rt || isSameProfessorB suggestionText professor rt)
        && hasResetState,
    url :=
      if sugs.any (fun e => e.suggestion == suggestionText && e.type == "professor") then
        "/results?professor=" ++ encodeURIComponent (canonicalizeSuggestion suggestionText)
      else
        "/results?course=" ++ encodeURIComponent (canonicalizeSuggestion suggestionText) }

/-! ## Claim-side (spec-worded) definitions, for refinement comparison -/

/-- Modelled from the claim C2 wording: `isSameCourse = routeType is course
AND course non-null AND text starts with course`. -/
def specSameCourseC2 (s : String) (course : Option String) (rt : Option RouteType) : Bool :=
  isCourseRoute rt && course.isSome && jsStartsWith s (course.getD "")

/-- Modelled from the claim C2 wording: `isSameProfessor = routeType is
professor AND text equals professor`. -/
def specSameProfessorC2 (s : String) (professor : Option String)
    (rt : Option RouteType) : Bool :=
  isProfessorRoute rt && (match professor with | some p => s == p | none => false)

/-- Claim C2's predicted `resetState` invocation (with `resetState` supplied). -/
def specResetCalledC2 (s : String) (course professor : Option String)
    (rt : Option RouteType) : Bool :=
  !(specSameCourseC2 s course rt || specSameProfessorC2 s professor rt)

/-- Amended C2 sameness: as the claim, but `course` must be non-empty
(JS truthiness), matching the source's short-circuit on `course &&`. -/
def specSameCourseAmd (s : String) (course : Option String) (rt : Option RouteType) : Bool :=
  isCourseRoute rt && truthyStr course && jsStartsWith s (course.getD "")

/-- Amended C2 sameness for professors: `professor` must be non-empty. -/
def specSameProfessorAmd (s : String) (professor : Option String)
    (rt : Option RouteType) : Bool :=
  isProfessorRoute rt && truthyStr professor && (s == professor.getD "")

/-- Whitespace tokenisation as the claim C3 words it: maximal nonempty runs
between whitespace characters. -/
def wsTokensAux : List Char → List Char → List (List Char)
  | [], acc => if acc.isEmpty then [] else [acc.reverse]
  | c :: cs, acc =>
    if c.isWhitespace then
      (if acc.isEmpty then wsTokensAux cs [] else acc.reverse :: wsTokensAux cs [])
    else wsTokensAux cs (c :: acc)

def wsTokens (s : List Char) : List (List Char) := wsTokensAux s []

/-- Claim C3's "exactly 4 characters long and numeric", read with the spec's
own gloss `<4-digit-number>`: four decimal digits. -/
def isFourDigitNumeric (t : List Char) : Bool := t.length == 4 && t.all isDecDigitChar

/-- Modelled from the claim C3 wording: identifier = first two
whitespace-delimited tokens when the second is a 4-character numeric token,
else the original text. -/
def specIdentifierC3 (s : String) : String :=
  match wsTokens s.data with
  | t0 :: t1 :: _ => if isFourDigitNumeric t1 then String.mk (t0 ++ ' ' :: t1) else s
  | _ => s

/-! ## Fetch body (source lines 44-59) -/

/-- What one settled fetch can look like to the `try` block: the promise
rejects (network error), the status is non-2xx (line 49 throws), the body
parses (`response.json()` fulfils), or the body is malformed and
`response.json()` rejects. -/
inductive FetchResponse where
  | netError : FetchResponse
  | okJson : List Suggestion → FetchResponse
  | okMalformed : FetchResponse
  | httpError : Nat → FetchResponse
deriving DecidableEq

/-- The outcome of the `try`/`catch`/`finally` of source lines 44-59: what
`setSuggestions` receives, the final loading flag, whether `console.error`
ran, and whether anything escaped the handler. -/
structure FetchResult where
  setSuggestionsTo : List Suggestion
  loadingAfter : Bool
  logged : Bool
  propagated : Bool
deriving DecidableEq

/-- Source lines 44-59: the success path stores the parsed data; every
throw — fetch rejection, the line-50 `throw` on `!response.ok`, and the
`response.json()` rejection (awaited inside the `try`) — lands in the
`catch`, which logs and clears, and `finally` resets loading. Nothing
escapes. -/
def fetchBody : FetchResponse → FetchResult
  | FetchResponse.okJson data =>
    { setSuggestionsTo := data, loadingAfter := false, logged := false, propagated := false }
  | FetchResponse.netError =>
    { setSuggestionsTo := [], loadingAfter := false, logged := true, propagated := false }
  | FetchResponse.httpError _ =>
    { setSuggestionsTo := [], loadingAfter := false, logged := true, propagated := false }
  | FetchResponse.okMalformed =>
    { setSuggestionsTo := [], loadingAfter := false, logged := true, propagated := false }

/-- The failure classes claim C7 covers: transport error or non-success
status. -/
def isTransportOrHttpError : FetchResponse → Bool
  | FetchResponse.netError => true
  | FetchResponse.httpError _ => true
  | _ => false

/-! ## Debounce timing (source lines 39-64, lodash debounce, 300 ms trailing) -/

/-- Lodash trailing-edge debounce over timed calls: a call fires `delay`
after it unless a later call arrives strictly inside the window (which
restarts the timer with the newer text). -/
def debounceFires (delay : Nat) : List (Nat × String) → List (Nat × String)
  | [] => []
  | [c] => [(c.1 + delay, c.2)]
  | c :: c2 :: rest =>
    if c.1 + delay ≤ c2.1 then (c.1 + delay, c.2) :: debounceFires delay (c2 :: rest)
    else debounceFires delay (c2 :: rest)

/-- What one debounced invocation does synchronously (source lines 40-62). -/
inductive SBAction where
  | query : String → SBAction
  | clear : SBAction
deriving DecidableEq

/-- The body of the debounced function: trim; over one UTF-16 unit issue the
GET for the encoded trimmed input, otherwise clear the suggestions. -/
def debouncedAction (s : String) : SBAction :=
  if utf16Len (jsTrimChars s.data) > 1 then
    SBAction.query ("/api/courses/search?query=" ++ encodeURIComponent (String.mk (jsTrimChars s.data)))
  else SBAction.clear

/-- The timed effects of a burst of `handleInputChange` calls. -/
def timedActions (delay : Nat) (calls : List (Nat × String)) : List (Nat × SBAction) :=
  (debounceFires delay calls).map (fun p => (p.1, debouncedAction p.2))

/-- The network queries among the timed effects. -/
def issuedQueries (acts : List (Nat × SBAction)) : List String :=
  acts.filterMap (fun p => match p.2 with | SBAction.query u => some u | SBAction.clear => none)

/-! ## Component state machine (for the race and loading-flag claims) -/

/-- The component's mutable state, plus bookkeeping of the requests started
and not yet settled (`inflight` carries the request numbers; the source
itself keeps no such token, which is exactly what the race claims probe). -/
structure SBState where
  searchInput : String
  suggestions : List Suggestion
  isLoading : Bool
  nextId : Nat
  inflight : List Nat
deriving DecidableEq

/-- The events the component reacts to: a keystroke (`handleInputChange`,
source lines 121-125), the debounced function firing for a text, and a
started fetch settling with some response. -/
inductive Ev where
  | input : String → Ev
  | fire : String → Ev
  | settle : Nat → FetchResponse → Ev

/-- One event: a keystroke stores the raw input; a firing with a long-enough
trimmed text sets loading and starts a request; a short firing clears the
list; a settlement applies its `fetchBody` outcome unconditionally — the
source compares no token, so a stale settlement writes the store exactly
like a fresh one. -/
def stepEv (st : SBState) (e : Ev) : SBState :=
  match e with
  | Ev.input t => { st with searchInput := t }
  | Ev.fire t =>
    if utf16Len (jsTrimChars t.data) > 1 then
      { st with isLoading := true, nextId := st.nextId + 1,
                inflight := st.inflight ++ [st.nextId] }
    else { st with suggestions := [] }
  | Ev.settle rid resp =>
    if st.inflight.contains rid then
      { st with suggestions := (fetchBody resp).setSuggestionsTo,
                isLoading := (fetchBody resp).loadingAfter,
                inflight := st.inflight.filter (fun x => x != rid) }
    else st

/-- The initial state (`useState` defaults with an empty `initialValue`). -/
def initState : SBState :=
  { searchInput := "", suggestions := [], isLoading := false, nextId := 0, inflight := [] }

def runEvents (st : SBState) (evs : List Ev) : SBState := evs.foldl stepEv st

/-! ## Helper lemmas about the space-splitting primitives -/

lemma splitOnSpaceAux_ne_nil (l : List Char) : ∀ acc, splitOnSpaceAux l acc ≠ [] := by
  induction l with
  | nil => intro acc; simp [splitOnSpaceAux]
  | cons c cs ih =>
    intro acc
    rw [splitOnSpaceAux]
    by_cases hc : c = ' '
    · simp [hc]
    · simpa [hc] using ih (c :: acc)

lemma jsSplitSpace_ne_nil (s : List Char) : jsSplitSpace s ≠ [] :=
  splitOnSpaceAux_ne_nil s []

lemma splitOnSpaceAux_no_space (l : List Char) :
    ∀ acc, ' ' ∉ acc → ∀ p ∈ splitOnSpaceAux l acc, ' ' ∉ p := by
  induction l with
  | nil =>
    intro acc hacc p hp
    rw [splitOnSpaceAux] at hp
    simp only [List.mem_singleton] at hp
    subst hp
    simpa [List.mem_reverse] using hacc
  | cons c cs ih =>
    intro acc hacc p hp
    rw [splitOnSpaceAux] at hp
    by_cases hc : c = ' '
    · rw [if_pos hc] at hp
      rcases List.mem_cons.mp hp with h | h
      · subst h; simpa [List.mem_reverse] using hacc
      · exact ih [] (by simp) p h
    · rw [if_neg hc] at hp
      refine ih (c :: acc) ?_ p hp
      intro hmem
      rcases List.mem_cons.mp hmem with h | h
      · exact hc h.symm
      · exact hacc h

lemma jsSplitSpace_no_space (s p : List Char) (hp : p ∈ jsSplitSpace s) : ' ' ∉ p :=
  splitOnSpaceAux_no_space s [] (by simp) p hp

lemma splitOnSpaceAux_space_free (a : List Char) (h : ' ' ∉ a) :
    ∀ acc, splitOnSpaceAux a acc = [acc.reverse ++ a] := by
  induction a with
  | nil => intro acc; simp [splitOnSpaceAux]
  | cons c cs ih =>
    intro acc
    have hc : ¬ (c = ' ') := by
      intro he; exact h (by simp [he])
    rw [splitOnSpaceAux, if_neg hc,
      ih (fun hm => h (List.mem_cons_of_mem _ hm)) (c :: acc)]
    simp

lemma splitOnSpaceAux_append (a : List Char) (h : ' ' ∉ a) :
    ∀ t acc, splitOnSpaceAux (a ++ ' ' :: t) acc
      = (acc.reverse ++ a) :: splitOnSpaceAux t [] := by
  induction a with
  | nil =>
    intro t acc
    rw [List.nil_append, splitOnSpaceAux, if_pos rfl]
    simp
  | cons c cs ih =>
    intro t acc
    have hc : ¬ (c = ' ') := by
      intro he; exact h (by simp [he])
    rw [List.cons_append, splitOnSpaceAux, if_neg hc,
      ih (fun hm => h (List.mem_cons_of_mem _ hm)) t (c :: acc)]
    simp

/-- Re-splitting the joined first-two-pieces candidate recovers exactly the
two pieces: the key step behind the identifier canonicalization. -/
lemma canonicalizeChars_two (s t0 t1 : List Char) (rest : List (List Char))
    (hs : jsSplitSpace s = t0 :: t1 :: rest) :
    canonicalizeChars s
      = if utf16Len t1 == 4 && jsNumberNotNaN t1 then t0 ++ ' ' :: t1 else s := by
  have h0 : ' ' ∉ t0 := jsSplitSpace_no_space s t0 (by rw [hs]; exact List.mem_cons_self _ _)
  have h1 : ' ' ∉ t1 :=
    jsSplitSpace_no_space s t1 (by rw [hs]; exact List.mem_cons_of_mem _ (List.mem_cons_self _ _))
  have htake : (jsSplitSpace s).take 2 = [t0, t1] := by rw [hs]; rfl
  have hjoin : joinSpace [t0, t1] = t0 ++ ' ' :: t1 := rfl
  have hsplit : jsSplitSpace (t0 ++ ' ' :: t1) = [t0, t1] := by
    unfold jsSplitSpace
    rw [splitOnSpaceAux_append t0 h0 t1 [], splitOnSpaceAux_space_free t1 h1 []]
    simp
  unfold canonicalizeChars
  rw [htake, hjoin, hsplit]

lemma canonicalizeChars_single (s t0 : List Char) (hs : jsSplitSpace s = [t0]) :
    canonicalizeChars s = s := by
  have h0 : ' ' ∉ t0 := jsSplitSpace_no_space s t0 (by rw [hs]; exact List.mem_cons_self _ _)
  have htake : (jsSplitSpace s).take 2 = [t0] := by rw [hs]; rfl
  have hjoin : joinSpace [t0] = t0 := rfl
  have hsplit : jsSplitSpace t0 = [t0] := by
    unfold jsSplitSpace
    rw [splitOnSpaceAux_space_free t0 h0 []]
    simp
  unfold canonicalizeChars
  rw [htake, hjoin, hsplit]

/-! ## Equivalence of the source's sameness booleans with the amended spec form -/

lemma isSameCourseB_eq_amd (s : String) (course : Option String) (rt : Option RouteType) :
    isSameCourseB s course rt = specSameCourseAmd s course rt := by
  cases course with
  | none => simp [isSameCourseB, specSameCourseAmd, truthyStr]
  | some c =>
    simp only [isSameCourseB, specSameCourseAmd, truthyStr, Option.getD]
    cases (c == "") <;> cases jsStartsWith s c <;> cases isCourseRoute rt <;> rfl

lemma isSameProfessorB_eq_amd (s : String) (professor : Option String) (rt : Option RouteType) :
    isSameProfessorB s professor rt = specSameProfessorAmd s professor rt := by
  cases professor with
  | none => simp [isSameProfessorB, specSameProfessorAmd, truthyStr]
  | some p =>
    simp only [isSameProfessorB, specSameProfessorAmd, truthyStr, Option.getD]
    cases (p == "") <;> cases (s == p) <;> cases isProfessorRoute rt <;> rfl

/-! ## Claim theorems -/

/-- C2 counterexample: with `course = ""` (non-null), `routeType = "course"`
and any selected text (every string starts with `""`), the claim's sameness
condition holds, so the claim says `resetState` is not called; the source's
truthiness check on `course` makes it falsy, so `resetState` IS called. -/
theorem c2_counterexample :
    (handleSearch [] (some "") none (some RouteType.course) true "A").resetCalled = true ∧
    specResetCalledC2 "A" (some "") none (some RouteType.course) = false := by
  exact ⟨rfl, rfl⟩

/-- C2 (amended): on a selection with `resetState` supplied, `resetState` is
called iff neither amended sameness condition holds, where the amended
conditions additionally require the `course`/`professor` prop to be
non-empty (JS truthiness); and in particular selecting
`"CSE 3320 OPERATING SYSTEMS"` with `course = "CSE 3320"` and
`routeType = "course"` does not call `resetState`. -/
theorem c2_amendedResetCondition :
    (∀ (sugs : List Suggestion) (s : String) (course professor : Option String)
        (rt : Option RouteType),
      (handleSearch sugs course professor rt true s).resetCalled
        = !(specSameCourseAmd s course rt || specSameProfessorAmd s professor rt)) ∧
    (handleSearch [{ suggestion := "CSE 3320 OPERATING SYSTEMS", type := "course" }]
        (some "CSE 3320") none (some RouteType.course) true
        "CSE 3320 OPERATING SYSTEMS").resetCalled = false := by
  constructor
  · intro sugs s course professor rt
    simp [handleSearch, isSameCourseB_eq_amd, isSameProfessorB_eq_amd]
  · decide

/-- C3 counterexample: for `"AB 12e3 CLASS"` the second token `"12e3"` is 4
characters but not numeric (the spec's canonical form is
`<SUBJECT> <4-digit-number>`), so the claim requires the identifier to be the
original text; the source accepts it because `Number("12e3")` is not NaN, and
truncates. -/
theorem c3_counterexample :
    canonicalizeSuggestion "AB 12e3 CLASS" = "AB 12e3" ∧
    specIdentifierC3 "AB 12e3 CLASS" = "AB 12e3 CLASS" := by
  exact ⟨rfl, rfl⟩

/-- C3 (amended): the navigation identifier is `"<token1> <token2>"` exactly
when splitting the selected text on the space character (as JS
`split(" ")`, empty pieces included) yields at least two pieces and the
second piece has UTF-16 length exactly 4 and is accepted by JS `Number`
conversion (`!isNaN`, which also admits forms such as `"12e3"`); in every
other case, including texts with fewer than two pieces, the identifier is
the original, unsliced text — not the two-token candidate. -/
theorem c3_amendedCanonicalization (s : String) :
    canonicalizeSuggestion s =
      match jsSplitSpace s.data with
      | t0 :: t1 :: _ =>
        if utf16Len t1 == 4 && jsNumberNotNaN t1 then String.mk (t0 ++ ' ' :: t1) else s
      | _ => s := by
  rcases hsp : jsSplitSpace s.data with _ | ⟨t0, rest⟩
  · exact absurd hsp (jsSplitSpace_ne_nil _)
  · cases rest with
    | nil =>
      have h1 := canonicalizeChars_single s.data t0 hsp
      simp only [canonicalizeSuggestion, h1]
    | cons t1 rest2 =>
      have h2 := canonicalizeChars_two s.data t0 t1 rest2 hsp
      simp only [canonicalizeSuggestion, h2]
      cases hc : (utf16Len t1 == 4 && jsNumberNotNaN t1) <;> simp [hc]

/-- C3 extra witness: evaluating the amended canonicalization at the spec's
own example. -/
theorem c3_amendedCanonicalization_witness :
    canonicalizeSuggestion "CSE 3320 OPERATING SYSTEMS" = "CSE 3320" :=
  (c3_amendedCanonicalization "CSE 3320 OPERATING SYSTEMS").trans (by decide)

/-- C6: the category is decided by looking the exact selected text up with
category `professor` in the captured suggestion list (the boolean the source
computes is equivalent to that existential), navigation goes to
`/results?professor=<identifier>` when such an entry exists and to
`/results?course=<identifier>` otherwise, and in particular selecting the
professor-typed `"Jane Smith"` navigates to
`/results?professor=Jane%20Smith`. -/
theorem c6_categoryLookupAndUrl :
    (∀ (sugs : List Suggestion) (course professor : Option String)
        (rt : Option RouteType) (b : Bool) (s : String),
      ((sugs.any (fun e => e.suggestion == s && e.type == "professor")) = true
          ↔ ∃ e, e ∈ sugs ∧ e.suggestion = s ∧ e.type = "professor") ∧
      (handleSearch sugs course professor rt b s).url =
        (if sugs.any (fun e => e.suggestion == s && e.type == "professor") then
          "/results?professor=" ++ encodeURIComponent (canonicalizeSuggestion s)
        else
          "/results?course=" ++ encodeURIComponent (canonicalizeSuggestion s))) ∧
    (handleSearch [{ suggestion := "Jane Smith", type := "professor" }]
        none none none false "Jane Smith").url = "/results?professor=Jane%20Smith" := by
  refine ⟨fun sugs course professor rt b s => ⟨?_, rfl⟩, by decide⟩
  simp [List.any_eq_true, Bool.and_eq_true, beq_iff_eq]

/-- C10: the identifier truncation does not check the suggestion's category —
for a professor-typed selection whose text splits (on the space character)
into a first token followed by a second token of UTF-16 length 4 accepted by
JS `Number`, the pushed URL is the professor route with the truncated
two-token identifier. -/
theorem c10_truncationIgnoresCategory (sugs : List Suggestion)
    (course professor : Option String) (rt : Option RouteType) (b : Bool)
    (s : String) (t0 t1 : List Char) (rest : List (List Char))
    (hp : sugs.any (fun e => e.suggestion == s && e.type == "professor") = true)
    (hs : jsSplitSpace s.data = t0 :: t1 :: rest)
    (h4 : utf16Len t1 = 4) (hn : jsNumberNotNaN t1 = true) :
    (handleSearch sugs course professor rt b s).url
      = "/results?professor=" ++ encodeURIComponent (String.mk (t0 ++ ' ' :: t1)) := by
  have hcanon : canonicalizeChars s.data = t0 ++ ' ' :: t1 := by
    rw [canonicalizeChars_two s.data t0 t1 rest hs]
    simp [h4, hn]
  simp [handleSearch, hp, canonicalizeSuggestion, hcanon]

/-- C10 witness: selecting the professor-typed `"Anna 2010 Lee"` navigates to
`/results?professor=Anna%202010`, the truncated identifier. -/
theorem c10_truncationIgnoresCategory_witness :
    (handleSearch [{ suggestion := "Anna 2010 Lee", type := "professor" }]
        none none none false "Anna 2010 Lee").url = "/results?professor=Anna%202010" := by
  have h := c10_truncationIgnoresCategory
    [{ suggestion := "Anna 2010 Lee", type := "professor" }]
    none none none false "Anna 2010 Lee" "Anna".data "2010".data ["Lee".data]
    (by decide) (by decide) (by decide) (by decide)
  exact h.trans (by decide)

/-! ## Debounce burst lemma -/

lemma debounceFires_burst (delay : Nat) (calls : List (Nat × String)) (h : calls ≠ [])
    (hg : List.Chain' (fun a b => b.1 < a.1 + delay) calls) :
    debounceFires delay calls = [((calls.getLast h).1 + delay, (calls.getLast h).2)] := by
  induction calls with
  | nil => exact absurd rfl h
  | cons c rest ih =>
    cases rest with
    | nil => simp [debounceFires]
    | cons c2 rest2 =>
      have hlt : c2.1 < c.1 + delay := (List.chain'_cons.mp hg).1
      have hnot : ¬ (c.1 + delay ≤ c2.1) := by omega
      have htail := ih (by simp) (List.chain'_cons.mp hg).2
      have hlast : (c :: c2 :: rest2).getLast h = (c2 :: rest2).getLast (by simp) :=
        List.getLast_cons _
      rw [debounceFires, if_neg hnot, htail, hlast]

/-- C4 counterexample: the burst `"ab"` at 0 ms then `"a"` at 100 ms has all
gaps inside the 300 ms window, yet zero queries are issued (the final text
trims to one character, so the single debounced firing clears instead of
querying), contradicting "exactly one query is issued". -/
theorem c4_counterexample :
    List.Chain' (fun a b => b.1 < a.1 + 300) [((0 : Nat), "ab"), ((100 : Nat), "a")] ∧
    issuedQueries (timedActions 300 [((0 : Nat), "ab"), ((100 : Nat), "a")]) = [] := by
  constructor
  · simp
  · rfl

/-- C4 (amended): a burst whose consecutive gaps are all under 300 ms
collapses into exactly one debounced invocation, 300 ms after the last call
and carrying the last text; that invocation issues exactly one query — for
the trimmed, URL-encoded final text — when the trimmed final text is longer
than one UTF-16 unit, and no query (a synchronous clear instead) otherwise. -/
theorem c4_amendedBurstCollapse (calls : List (Nat × String)) (h : calls ≠ [])
    (hg : List.Chain' (fun a b => b.1 < a.1 + 300) calls) :
    timedActions 300 calls
      = [((calls.getLast h).1 + 300, debouncedAction (calls.getLast h).2)] ∧
    issuedQueries (timedActions 300 calls)
      = (if utf16Len (jsTrimChars (calls.getLast h).2.data) > 1 then
          ["/api/courses/search?query="
            ++ encodeURIComponent (String.mk (jsTrimChars (calls.getLast h).2.data))]
        else []) := by
  have hb := debounceFires_burst 300 calls h hg
  constructor
  · simp [timedActions, hb]
  · by_cases hc : utf16Len (jsTrimChars (calls.getLast h).2.data) > 1 <;>
      simp [timedActions, hb, issuedQueries, debouncedAction, hc]

/-- C4 witness: the burst `"ca"` at 0 ms, `"cat"` at 100 ms fires once at
400 ms and issues the single query for `"cat"`. -/
theorem c4_amendedBurstCollapse_witness :
    timedActions 300 [((0 : Nat), "ca"), ((100 : Nat), "cat")]
      = [(400, SBAction.query "/api/courses/search?query=cat")] ∧
    issuedQueries (timedActions 300 [((0 : Nat), "ca"), ((100 : Nat), "cat")])
      = ["/api/courses/search?query=cat"] := by
  have h := c4_amendedBurstCollapse [((0 : Nat), "ca"), ((100 : Nat), "cat")]
    (by simp) (by simp)
  exact ⟨h.1.trans (by decide), h.2.trans (by decide)⟩

/-- C5 counterexample: for the single input `"a"` (trimmed length 1) the
suggestion-clearing action happens at 300 ms — inside the debounced
invocation — not synchronously at the input's time 0. -/
theorem c5_counterexample :
    timedActions 300 [((0 : Nat), "a")] = [(300, SBAction.clear)] ∧ (300 : Nat) ≠ 0 := by
  exact ⟨rfl, by decide⟩

/-- C5 (amended): for an input whose trimmed length is at most one UTF-16
unit, no network call is made and the suggestion list is cleared — but the
clear runs inside the debounced invocation, 300 ms after the call, not
synchronously. -/
theorem c5_amendedDelayedClear (t : Nat) (s : String)
    (h : utf16Len (jsTrimChars s.data) ≤ 1) :
    timedActions 300 [(t, s)] = [(t + 300, SBAction.clear)] := by
  have hc : ¬ (utf16Len (jsTrimChars s.data) > 1) := by omega
  simp [timedActions, debounceFires, debouncedAction, hc]

/-- C5 witness: input `"x"` at 7 ms clears at 307 ms with no query. -/
theorem c5_amendedDelayedClear_witness :
    timedActions 300 [((7 : Nat), "x")] = [(307, SBAction.clear)] :=
  c5_amendedDelayedClear 7 "x" (by decide)

/-! ## Fetch failure handling -/

/-- C7: every fetch that fails with a transport error or a non-success HTTP
status ends with the suggestion list cleared, loading false, the error
reported to `console.error`, and nothing propagating out of the handler. -/
theorem c7_fetchFailureHandled (resp : FetchResponse)
    (h : isTransportOrHttpError resp = true) :
    fetchBody resp
      = { setSuggestionsTo := [], loadingAfter := false, logged := true, propagated := false } := by
  cases resp with
  | netError => rfl
  | httpError s => rfl
  | okJson data => exact absurd h (by simp [isTransportOrHttpError])
  | okMalformed => exact absurd h (by simp [isTransportOrHttpError])

/-- C7 witness: the network-error case, evaluated. -/
theorem c7_fetchFailureHandled_witness :
    fetchBody FetchResponse.netError
      = { setSuggestionsTo := [], loadingAfter := false, logged := true, propagated := false } :=
  c7_fetchFailureHandled FetchResponse.netError rfl

/-- C8 counterexample: a successful-status fetch whose body fails to parse
does NOT propagate an unhandled rejection — `response.json()` is awaited
inside the `try`, so the rejection is caught and converted into the
cleared-suggestions error path. -/
theorem c8_counterexample :
    (fetchBody FetchResponse.okMalformed).propagated = false ∧
    (fetchBody FetchResponse.okMalformed).setSuggestionsTo = [] :=
  ⟨rfl, rfl⟩

/-- C8 (amended): a malformed body on a successful status is handled by the
same `catch` as transport/status failures: suggestions cleared, loading
false, the error logged, nothing propagated. -/
theorem c8_amendedMalformedCaught :
    fetchBody FetchResponse.okMalformed
      = { setSuggestionsTo := [], loadingAfter := false, logged := true, propagated := false } :=
  rfl

/-! ## The race and the loading flag -/

/-- C1: the source applies whichever response settles last.  In the trace
below input `"ab"` starts request 0, input `"abc"` starts request 1,
request 1's response (the fresh data) is applied first, and request 0's
stale response is applied after it: the final suggestion list is the stale
data of the superseded input, which the claim forbids. -/
theorem c1_staleResponseApplied :
    (runEvents initState
      [Ev.input "ab", Ev.fire "ab", Ev.input "abc", Ev.fire "abc",
       Ev.settle 1 (FetchResponse.okJson [{ suggestion := "BAKE 1234 FRESH", type := "course" }]),
       Ev.settle 0 (FetchResponse.okJson [{ suggestion := "ABLE 1234 STALE", type := "course" }])]
      ).suggestions
      = [{ suggestion := "ABLE 1234 STALE", type := "course" }] ∧
    ([{ suggestion := "ABLE 1234 STALE", type := "course" }] : List Suggestion)
      ≠ [{ suggestion := "BAKE 1234 FRESH", type := "course" }] := by
  exact ⟨rfl, by decide⟩

/-- C9 counterexample: type `"ab"`, let the debounce fire (fetch in flight,
loading set), then clear the input before the response arrives: the raw
input is `""` while `loading` is still `true`, although the claim requires
`loading = false` whenever the raw input is empty. -/
theorem c9_counterexample :
    (runEvents initState [Ev.input "ab", Ev.fire "ab", Ev.input ""]).searchInput = "" ∧
    (runEvents initState [Ev.input "ab", Ev.fire "ab", Ev.input ""]).isLoading = true :=
  ⟨rfl, rfl⟩

/-- The loading flag can only be raised by an event that also records an
in-flight request. -/
lemma stepEv_loadingInv (st : SBState) (e : Ev)
    (h : st.isLoading = true → st.inflight ≠ []) :
    (stepEv st e).isLoading = true → (stepEv st e).inflight ≠ [] := by
  cases e with
  | input t => simpa [stepEv] using h
  | fire t =>
    by_cases hc : utf16Len (jsTrimChars t.data) > 1
    · simp [stepEv, hc]
    · simpa [stepEv, hc] using h
  | settle rid resp =>
    by_cases hc : rid ∈ st.inflight
    · intro hl
      cases resp <;> simp [stepEv, hc, fetchBody] at hl
    · simpa [stepEv, hc] using h

lemma foldl_loadingInv (evs : List Ev) :
    ∀ st : SBState, (st.isLoading = true → st.inflight ≠ []) →
      ((evs.foldl stepEv st).isLoading = true → (evs.foldl stepEv st).inflight ≠ []) := by
  induction evs with
  | nil => exact fun st h => h
  | cons e rest ih => exact fun st h => ih (stepEv st e) (stepEv_loadingInv st e h)

/-- C9 (amended): in every reachable state, `loading = true` implies at
least one started fetch has not yet settled — but that fetch need not
belong to the current input, and an empty or short input does not force
`loading` back to false while such a fetch is outstanding. -/
theorem c9_amendedLoadingOnlyWhileInflight (evs : List Ev)
    (h : (runEvents initState evs).isLoading = true) :
    (runEvents initState evs).inflight ≠ [] := by
  refine foldl_loadingInv evs initState ?_ h
  intro h0
  simp [initState] at h0

/-- C9 witness: after typing `"ab"` and the debounce firing, loading is true
and request 0 is in flight. -/
theorem c9_amendedLoadingOnlyWhileInflight_witness :
    (runEvents initState [Ev.input "ab", Ev.fire "ab"]).isLoading = true ∧
    (runEvents initState [Ev.input "ab", Ev.fire "ab"]).inflight ≠ [] :=
  ⟨rfl, c9_amendedLoadingOnlyWhileInflight [Ev.input "ab", Ev.fire "ab"] rfl⟩
